import Mathlib

/-!
Verification of the user-schema validation module (app/schemas/user.py).

The module under verification declares pydantic models `UserResponse` and
`UserLogin`. Its integration tests additionally exercise `UserCreate`,
`UserUpdate` and `PasswordUpdate`, whose class bodies are not part of the
checked-in schema file; those are modelled from the specification where a
claim needs them, and each such definition is marked in its doc comment.

The embedding models a validation call as pydantic performs it: the raw
input is a mapping from field names to raw values, each declared field is
looked up and checked in declaration order, per-field errors are
accumulated into a list (first violation only per field), and cross-field
model validators run only once every field-level check has passed.
-/

namespace UserSchemas

/-- Raw values occurring in an input mapping: strings, booleans, and the
UUID and datetime values used by `UserResponse`. UUIDs and datetimes are
kept abstract (a tag around an underlying representation); the claims under
verification never inspect their contents. -/
inductive Value where
  | str (s : String)
  | bool (b : Bool)
  | uuid (u : String)
  | datetime (t : Nat)
  deriving DecidableEq, Repr

/-- One reported rule failure: the field path it is attached to and the
human-readable message. -/
structure Violation where
  loc : String
  msg : String
  deriving DecidableEq, Repr

/-- A raw input mapping, as pydantic receives keyword arguments. -/
abbrev Input := List (String × Value)

/-- Look up a field by name in the raw input. -/
def lookupField (input : Input) (k : String) : Option Value :=
  (input.find? (fun p => p.1 == k)).map (·.2)

/-- Boolean substring check: `strContains s pat` holds when `pat` occurs
contiguously inside `s`. Used to state the message contracts, which are
phrased as "message containing ...". -/
def strContains (s pat : String) : Bool :=
  (List.range (s.toList.length + 1)).any (fun i => pat.toList.isPrefixOf (s.toList.drop i))

/-- The violation pydantic reports for a required field absent from input. -/
def requiredViol (k : String) : Violation :=
  ⟨k, "Field required"⟩

/-- Field check for a plain `str` field (as `UserLogin.username`,
`UserLogin.password`, and the string fields of `UserResponse`): the field
must be present and be a string; no further constraint. -/
def requireStr (input : Input) (k : String) : Except Violation String :=
  match lookupField input k with
  | none => .error (requiredViol k)
  | some (.str s) => .ok s
  | some _ => .error ⟨k, "Input should be a valid string"⟩

/-- Model of the email-syntax check performed by the `EmailStr` type of
`UserResponse.email` (pydantic delegates to the email-validator library);
abstracted to the aspects the module relies on: a single at-sign separating
a nonempty local part from a nonempty domain that contains a dot, and no
spaces. -/
def isValidEmail (s : String) : Bool :=
  let cs := s.toList
  (cs.count '@' == 1) &&
  let locPart := cs.takeWhile (· != '@')
  let domPart := (cs.dropWhile (· != '@')).drop 1
  !locPart.isEmpty && !domPart.isEmpty && domPart.contains '.' && !cs.contains ' '

/-- Field check for an `EmailStr` field: present, a string, and valid
email syntax. -/
def requireEmail (input : Input) (k : String) : Except Violation String :=
  match lookupField input k with
  | none => .error (requiredViol k)
  | some (.str s) =>
      if isValidEmail s then .ok s
      else .error ⟨k, "value is not a valid email address"⟩
  | some _ => .error ⟨k, "Input should be a valid string"⟩

/-- Field check for a `bool` field of `UserResponse`. -/
def requireBool (input : Input) (k : String) : Except Violation Bool :=
  match lookupField input k with
  | none => .error (requiredViol k)
  | some (.bool b) => .ok b
  | some _ => .error ⟨k, "Input should be a valid boolean"⟩

/-- Field check for the `UUID` field of `UserResponse`. -/
def requireUUID (input : Input) (k : String) : Except Violation String :=
  match lookupField input k with
  | none => .error (requiredViol k)
  | some (.uuid u) => .ok u
  | some _ => .error ⟨k, "Input should be a valid UUID"⟩

/-- Field check for a `datetime` field of `UserResponse`. -/
def requireDatetime (input : Input) (k : String) : Except Violation Nat :=
  match lookupField input k with
  | none => .error (requiredViol k)
  | some (.datetime t) => .ok t
  | some _ => .error ⟨k, "Input should be a valid datetime"⟩

/-- Decidable equality on validation results, so concrete validation runs
can be checked by evaluation. -/
instance {ε α : Type} [DecidableEq ε] [DecidableEq α] : DecidableEq (Except ε α) :=
  fun a b =>
    match a, b with
    | .ok x, .ok y =>
        if h : x = y then .isTrue (by rw [h]) else .isFalse (fun he => h (by cases he; rfl))
    | .error x, .error y =>
        if h : x = y then .isTrue (by rw [h]) else .isFalse (fun he => h (by cases he; rfl))
    | .ok _, .error _ => .isFalse (fun he => by cases he)
    | .error _, .ok _ => .isFalse (fun he => by cases he)

/-- The violations carried by an aggregated field-stage result. -/
def errsL {α : Type} (r : Except (List Violation) α) : List Violation :=
  match r with
  | .error es => es
  | .ok _ => []

/-- The violations carried by a single field-check result. -/
def errsOf {α : Type} (r : Except Violation α) : List Violation :=
  match r with
  | .error e => [e]
  | .ok _ => []

/-- Error-accumulating application, the pydantic field pipeline: if the
record built so far and the next field both validated, extend the record;
otherwise collect the violations of both sides in declaration order. -/
def vapp {α β : Type} (rf : Except (List Violation) (α → β))
    (ra : Except Violation α) : Except (List Violation) β :=
  match rf, ra with
  | .ok f, .ok a => .ok (f a)
  | rf, ra => .error (errsL rf ++ errsOf ra)

/-- Schema for user login (class `UserLogin`): two required plain string
fields, no other constraint. -/
structure UserLogin where
  username : String
  password : String
  deriving DecidableEq, Repr

/-- The declared field names of `UserLogin`, in declaration order. -/
def userLoginFields : List String := ["username", "password"]

/-- Validation of a raw input against `UserLogin`: each declared field is
required and must be a string; all field errors are aggregated. -/
def validateUserLogin (input : Input) : Except (List Violation) UserLogin :=
  vapp (vapp (.ok UserLogin.mk)
    (requireStr input "username"))
    (requireStr input "password")

/-- Schema for user response data (class `UserResponse`): nine required,
typed attributes; `email` is an `EmailStr`. -/
structure UserResponse where
  id : String
  username : String
  email : String
  first_name : String
  last_name : String
  is_active : Bool
  is_verified : Bool
  created_at : Nat
  updated_at : Nat
  deriving DecidableEq, Repr

/-- The declared field names of `UserResponse`, in declaration order. -/
def userResponseFields : List String :=
  ["id", "username", "email", "first_name", "last_name",
   "is_active", "is_verified", "created_at", "updated_at"]

/-- Validation of a raw input against `UserResponse`: every declared
attribute is required and type-checked; the only content rule is the email
syntax of the `EmailStr` type; all field errors are aggregated. -/
def validateUserResponse (input : Input) : Except (List Violation) UserResponse :=
  vapp (vapp (vapp (vapp (vapp (vapp (vapp (vapp (vapp (.ok UserResponse.mk)
    (requireUUID input "id"))
    (requireStr input "username"))
    (requireEmail input "email"))
    (requireStr input "first_name"))
    (requireStr input "last_name"))
    (requireBool input "is_active"))
    (requireBool input "is_verified"))
    (requireDatetime input "created_at"))
    (requireDatetime input "updated_at")

/-- Modelled from the spec: the defined special-character set of the
Password Strength Policy. The spec leaves the exact set open ("a defined
special-character set"); this set covers the characters exercised by the
documented examples. -/
def specialChars : List Char := "!@#$%^&*()-_=+[]|;:,.<>?/".toList

/-- Modelled from the spec: the five-part Password Strength Policy applied
to `UserCreate.password` and `PasswordUpdate.new_password` (the `UserCreate`
and `PasswordUpdate` class bodies are absent from the schema file; only the
tests reference them). Checks run in the fixed order length, uppercase,
lowercase, digit, special character, and evaluation stops at the first
failing check, returning only that message. -/
def checkPassword (p : String) : Option String :=
  if p.length < 8 then some "at least 8 characters"
  else if !(p.toList.any (·.isUpper)) then some "at least one uppercase letter"
  else if !(p.toList.any (·.isLower)) then some "at least one lowercase letter"
  else if !(p.toList.any (·.isDigit)) then some "at least one digit"
  else if !(p.toList.any (fun c => specialChars.contains c)) then
    some "at least one special character"
  else none

/-- Modelled from the spec: the username length rule of `UserCreate`
(length 3 to 50, bounds inclusive), with the message contract of the spec. -/
def checkUsername (s : String) : Option String :=
  if s.length < 3 then some "at least 3 characters"
  else if 50 < s.length then some "at most 50 characters"
  else none

/-- Modelled from the spec: field check for the constrained username field
of `UserCreate`: required, a string, length within bounds. -/
def requireUsername (input : Input) (k : String) : Except Violation String :=
  match lookupField input k with
  | none => .error (requiredViol k)
  | some (.str s) =>
      match checkUsername s with
      | some m => .error ⟨k, m⟩
      | none => .ok s
  | some _ => .error ⟨k, "Input should be a valid string"⟩

/-- Modelled from the spec: field check for a password field subject to the
strength policy (`UserCreate.password`, `PasswordUpdate.new_password`):
required, a string, and passing `checkPassword`; only the first violated
sub-rule is surfaced. -/
def requirePassword (input : Input) (k : String) : Except Violation String :=
  match lookupField input k with
  | none => .error (requiredViol k)
  | some (.str s) =>
      match checkPassword s with
      | some m => .error ⟨k, m⟩
      | none => .ok s
  | some _ => .error ⟨k, "Input should be a valid string"⟩

/-- Modelled from the spec: the `UserCreate` request shape (class absent
from the schema file): first_name, last_name, email, username, password,
confirm_password. -/
structure UserCreate where
  first_name : String
  last_name : String
  email : String
  username : String
  password : String
  confirm_password : String
  deriving DecidableEq, Repr

/-- Modelled from the spec: the field-level stage of `UserCreate`
validation, aggregating the first violation of every failing field. -/
def userCreateFieldStage (input : Input) : Except (List Violation) UserCreate :=
  vapp (vapp (vapp (vapp (vapp (vapp (.ok UserCreate.mk)
    (requireStr input "first_name"))
    (requireStr input "last_name"))
    (requireEmail input "email"))
    (requireUsername input "username"))
    (requirePassword input "password"))
    (requireStr input "confirm_password")

/-- Modelled from the spec: full `UserCreate` validation: the cross-field
rule password == confirm_password runs only after every field-level check
has passed, and fails with a message containing "Passwords do not match". -/
def validateUserCreate (input : Input) : Except (List Violation) UserCreate :=
  match userCreateFieldStage input with
  | .error es => .error es
  | .ok r =>
      if r.password ≠ r.confirm_password then
        .error [⟨"confirm_password", "Passwords do not match"⟩]
      else .ok r

/-- Modelled from the spec: the `PasswordUpdate` request shape (class
absent from the schema file): current_password, new_password,
confirm_new_password, all required strings, with the strength policy on
new_password. -/
structure PasswordUpdate where
  current_password : String
  new_password : String
  confirm_new_password : String
  deriving DecidableEq, Repr

/-- Modelled from the spec: the field-level stage of `PasswordUpdate`
validation. -/
def passwordUpdateFieldStage (input : Input) : Except (List Violation) PasswordUpdate :=
  vapp (vapp (vapp (.ok PasswordUpdate.mk)
    (requireStr input "current_password"))
    (requirePassword input "new_password"))
    (requireStr input "confirm_new_password")

/-- Modelled from the spec: full `PasswordUpdate` validation: after the
field-level stage, first new_password == confirm_new_password is checked
("do not match" on failure), then new_password != current_password
("must be different" on failure). -/
def validatePasswordUpdate (input : Input) : Except (List Violation) PasswordUpdate :=
  match passwordUpdateFieldStage input with
  | .error es => .error es
  | .ok r =>
      if r.new_password ≠ r.confirm_new_password then
        .error [⟨"confirm_new_password", "New passwords do not match"⟩]
      else if r.new_password = r.current_password then
        .error [⟨"new_password", "New password must be different from current password"⟩]
      else .ok r

/-! Machinery lemmas about the error-accumulating pipeline. -/

lemma errsL_vapp {α β : Type} (rf : Except (List Violation) (α → β))
    (ra : Except Violation α) : errsL (vapp rf ra) = errsL rf ++ errsOf ra := by
  cases rf <;> cases ra <;> rfl

lemma vapp_ok {α β : Type} {rf : Except (List Violation) (α → β)}
    {ra : Except Violation α} {f : α → β} {a : α}
    (hf : rf = .ok f) (ha : ra = .ok a) : vapp rf ra = .ok (f a) := by
  subst hf; subst ha; rfl

lemma error_of_errsL_ne_nil {α : Type} {r : Except (List Violation) α}
    (h : errsL r ≠ []) : r = .error (errsL r) := by
  cases r with
  | error es => rfl
  | ok a => simp [errsL] at h

lemma errsL_of_ok {α : Type} {r : Except (List Violation) α} {a : α}
    (h : r = .ok a) : errsL r = [] := by
  subst h; rfl

/-! Reduction lemmas for the individual field checks. -/

lemma requireStr_ok {input : Input} {k s : String}
    (h : lookupField input k = some (.str s)) : requireStr input k = .ok s := by
  unfold requireStr; rw [h]

lemma requireStr_missing {input : Input} {k : String}
    (h : lookupField input k = none) : requireStr input k = .error (requiredViol k) := by
  unfold requireStr; rw [h]

lemma requireEmail_ok {input : Input} {k s : String}
    (h : lookupField input k = some (.str s)) (hv : isValidEmail s = true) :
    requireEmail input k = .ok s := by
  unfold requireEmail; rw [h]; simp [hv]

lemma requireEmail_invalid {input : Input} {k s : String}
    (h : lookupField input k = some (.str s)) (hv : isValidEmail s = false) :
    requireEmail input k = .error ⟨k, "value is not a valid email address"⟩ := by
  unfold requireEmail; rw [h]; simp [hv]

lemma requireEmail_missing {input : Input} {k : String}
    (h : lookupField input k = none) : requireEmail input k = .error (requiredViol k) := by
  unfold requireEmail; rw [h]

lemma requireBool_ok {input : Input} {k : String} {b : Bool}
    (h : lookupField input k = some (.bool b)) : requireBool input k = .ok b := by
  unfold requireBool; rw [h]

lemma requireBool_missing {input : Input} {k : String}
    (h : lookupField input k = none) : requireBool input k = .error (requiredViol k) := by
  unfold requireBool; rw [h]

lemma requireUUID_ok {input : Input} {k u : String}
    (h : lookupField input k = some (.uuid u)) : requireUUID input k = .ok u := by
  unfold requireUUID; rw [h]

lemma requireUUID_missing {input : Input} {k : String}
    (h : lookupField input k = none) : requireUUID input k = .error (requiredViol k) := by
  unfold requireUUID; rw [h]

lemma requireDatetime_ok {input : Input} {k : String} {t : Nat}
    (h : lookupField input k = some (.datetime t)) : requireDatetime input k = .ok t := by
  unfold requireDatetime; rw [h]

lemma requireDatetime_missing {input : Input} {k : String}
    (h : lookupField input k = none) : requireDatetime input k = .error (requiredViol k) := by
  unfold requireDatetime; rw [h]

lemma requireUsername_ok {input : Input} {k s : String}
    (h : lookupField input k = some (.str s)) (hc : checkUsername s = none) :
    requireUsername input k = .ok s := by
  simp [requireUsername, h, hc]

lemma requireUsername_fails {input : Input} {k s m : String}
    (h : lookupField input k = some (.str s)) (hc : checkUsername s = some m) :
    requireUsername input k = .error ⟨k, m⟩ := by
  simp [requireUsername, h, hc]

lemma requirePassword_ok {input : Input} {k s : String}
    (h : lookupField input k = some (.str s)) (hc : checkPassword s = none) :
    requirePassword input k = .ok s := by
  simp [requirePassword, h, hc]

lemma requirePassword_fails {input : Input} {k s m : String}
    (h : lookupField input k = some (.str s)) (hc : checkPassword s = some m) :
    requirePassword input k = .error ⟨k, m⟩ := by
  simp [requirePassword, h, hc]

/-! Schema-level reduction lemmas. -/

lemma validateUserLogin_ok {input : Input} {u p : String}
    (hu : lookupField input "username" = some (.str u))
    (hp : lookupField input "password" = some (.str p)) :
    validateUserLogin input = .ok ⟨u, p⟩ := by
  unfold validateUserLogin
  rw [vapp_ok (vapp_ok rfl (requireStr_ok hu)) (requireStr_ok hp)]

lemma errsL_validateUserLogin (input : Input) :
    errsL (validateUserLogin input) =
      errsOf (requireStr input "username") ++ errsOf (requireStr input "password") := by
  unfold validateUserLogin
  rw [errsL_vapp, errsL_vapp]
  rfl

lemma validateUserResponse_ok {input : Input}
    {i u e fn ln : String} {ia iv : Bool} {ca ua : Nat}
    (h1 : lookupField input "id" = some (.uuid i))
    (h2 : lookupField input "username" = some (.str u))
    (h3 : lookupField input "email" = some (.str e))
    (h4 : lookupField input "first_name" = some (.str fn))
    (h5 : lookupField input "last_name" = some (.str ln))
    (h6 : lookupField input "is_active" = some (.bool ia))
    (h7 : lookupField input "is_verified" = some (.bool iv))
    (h8 : lookupField input "created_at" = some (.datetime ca))
    (h9 : lookupField input "updated_at" = some (.datetime ua))
    (hem : isValidEmail e = true) :
    validateUserResponse input = .ok ⟨i, u, e, fn, ln, ia, iv, ca, ua⟩ := by
  unfold validateUserResponse
  rw [vapp_ok (vapp_ok (vapp_ok (vapp_ok (vapp_ok (vapp_ok (vapp_ok (vapp_ok (vapp_ok rfl
    (requireUUID_ok h1)) (requireStr_ok h2)) (requireEmail_ok h3 hem)) (requireStr_ok h4))
    (requireStr_ok h5)) (requireBool_ok h6)) (requireBool_ok h7)) (requireDatetime_ok h8))
    (requireDatetime_ok h9)]

lemma errsL_validateUserResponse (input : Input) :
    errsL (validateUserResponse input) =
      errsOf (requireUUID input "id") ++ errsOf (requireStr input "username") ++
      errsOf (requireEmail input "email") ++ errsOf (requireStr input "first_name") ++
      errsOf (requireStr input "last_name") ++ errsOf (requireBool input "is_active") ++
      errsOf (requireBool input "is_verified") ++ errsOf (requireDatetime input "created_at") ++
      errsOf (requireDatetime input "updated_at") := by
  unfold validateUserResponse
  rw [errsL_vapp, errsL_vapp, errsL_vapp, errsL_vapp, errsL_vapp, errsL_vapp, errsL_vapp,
    errsL_vapp, errsL_vapp]
  rfl

/-- A missing required field of `UserLogin` puts its required-violation
into the aggregated violation list. -/
lemma loginViol_mem_of_missing {input : Input} {k : String}
    (hk : k ∈ userLoginFields) (h : lookupField input k = none) :
    requiredViol k ∈ errsL (validateUserLogin input) := by
  rw [errsL_validateUserLogin]
  simp only [userLoginFields, List.mem_cons, List.not_mem_nil, or_false] at hk
  rcases hk with rfl | rfl
  · rw [requireStr_missing h]; simp [errsOf]
  · rw [requireStr_missing h]; simp [errsOf]

/-- A missing required field of `UserResponse` puts its required-violation
into the aggregated violation list. -/
lemma responseViol_mem_of_missing {input : Input} {k : String}
    (hk : k ∈ userResponseFields) (h : lookupField input k = none) :
    requiredViol k ∈ errsL (validateUserResponse input) := by
  rw [errsL_validateUserResponse]
  simp only [userResponseFields, List.mem_cons, List.not_mem_nil, or_false] at hk
  rcases hk with rfl | rfl | rfl | rfl | rfl | rfl | rfl | rfl | rfl
  · rw [requireUUID_missing h]; simp [errsOf]
  · rw [requireStr_missing h]; simp [errsOf]
  · rw [requireEmail_missing h]; simp [errsOf]
  · rw [requireStr_missing h]; simp [errsOf]
  · rw [requireStr_missing h]; simp [errsOf]
  · rw [requireBool_missing h]; simp [errsOf]
  · rw [requireBool_missing h]; simp [errsOf]
  · rw [requireDatetime_missing h]; simp [errsOf]
  · rw [requireDatetime_missing h]; simp [errsOf]

lemma userCreateFieldStage_ok {input : Input} {fn ln em un pw cp : String}
    (h1 : lookupField input "first_name" = some (.str fn))
    (h2 : lookupField input "last_name" = some (.str ln))
    (h3 : lookupField input "email" = some (.str em))
    (h4 : lookupField input "username" = some (.str un))
    (h5 : lookupField input "password" = some (.str pw))
    (h6 : lookupField input "confirm_password" = some (.str cp))
    (hem : isValidEmail em = true)
    (hun : checkUsername un = none)
    (hpw : checkPassword pw = none) :
    userCreateFieldStage input = .ok ⟨fn, ln, em, un, pw, cp⟩ := by
  unfold userCreateFieldStage
  rw [vapp_ok (vapp_ok (vapp_ok (vapp_ok (vapp_ok (vapp_ok rfl
    (requireStr_ok h1)) (requireStr_ok h2)) (requireEmail_ok h3 hem))
    (requireUsername_ok h4 hun)) (requirePassword_ok h5 hpw)) (requireStr_ok h6)]

lemma passwordUpdateFieldStage_ok {input : Input} {cur np cnp : String}
    (h1 : lookupField input "current_password" = some (.str cur))
    (h2 : lookupField input "new_password" = some (.str np))
    (h3 : lookupField input "confirm_new_password" = some (.str cnp))
    (hnp : checkPassword np = none) :
    passwordUpdateFieldStage input = .ok ⟨cur, np, cnp⟩ := by
  unfold passwordUpdateFieldStage
  rw [vapp_ok (vapp_ok (vapp_ok rfl
    (requireStr_ok h1)) (requirePassword_ok h2 hnp)) (requireStr_ok h3)]

/-! Lemmas about extraneous keys: every field check reads the input only
through `lookupField` at its own field name. -/

lemma lookupField_extraneous (l₁ l₂ : Input) (k f : String) (v : Value)
    (h : f ≠ k) :
    lookupField (l₁ ++ (k, v) :: l₂) f = lookupField (l₁ ++ l₂) f := by
  have hk : (k == f) = false := beq_eq_false_iff_ne.mpr (Ne.symm h)
  induction l₁ with
  | nil => simp [lookupField, List.find?, hk]
  | cons hd tl ih =>
      simp only [List.cons_append, lookupField, List.find?]
      cases hhd : (hd.1 == f) with
      | true => rfl
      | false => exact ih

lemma requireStr_congr {i₁ i₂ : Input} {k : String}
    (h : lookupField i₁ k = lookupField i₂ k) :
    requireStr i₁ k = requireStr i₂ k := by
  unfold requireStr; rw [h]

lemma requireEmail_congr {i₁ i₂ : Input} {k : String}
    (h : lookupField i₁ k = lookupField i₂ k) :
    requireEmail i₁ k = requireEmail i₂ k := by
  unfold requireEmail; rw [h]

lemma requireBool_congr {i₁ i₂ : Input} {k : String}
    (h : lookupField i₁ k = lookupField i₂ k) :
    requireBool i₁ k = requireBool i₂ k := by
  unfold requireBool; rw [h]

lemma requireUUID_congr {i₁ i₂ : Input} {k : String}
    (h : lookupField i₁ k = lookupField i₂ k) :
    requireUUID i₁ k = requireUUID i₂ k := by
  unfold requireUUID; rw [h]

lemma requireDatetime_congr {i₁ i₂ : Input} {k : String}
    (h : lookupField i₁ k = lookupField i₂ k) :
    requireDatetime i₁ k = requireDatetime i₂ k := by
  unfold requireDatetime; rw [h]

/-- `strContains` is reflexive: every string contains itself. -/
lemma strContains_self (s : String) : strContains s s = true := by
  unfold strContains
  rw [List.any_eq_true]
  refine ⟨0, ?_, ?_⟩
  · simp
  · simp [List.isPrefixOf_iff_prefix]

lemma validateUserCreate_of_stage_ok {input : Input} {r : UserCreate}
    (h : userCreateFieldStage input = .ok r) :
    validateUserCreate input =
      if r.password ≠ r.confirm_password then
        .error [⟨"confirm_password", "Passwords do not match"⟩]
      else .ok r := by
  unfold validateUserCreate; rw [h]

lemma validatePasswordUpdate_of_stage_ok {input : Input} {r : PasswordUpdate}
    (h : passwordUpdateFieldStage input = .ok r) :
    validatePasswordUpdate input =
      if r.new_password ≠ r.confirm_new_password then
        .error [⟨"confirm_new_password", "New passwords do not match"⟩]
      else if r.new_password = r.current_password then
        .error [⟨"new_password", "New password must be different from current password"⟩]
      else .ok r := by
  unfold validatePasswordUpdate; rw [h]

/-! Claim theorems. -/

/-- C1: for every input mapping that satisfies all field-level and
cross-field rules of the schema it is validated against (here the schemas
declared in the module, `UserLogin` and `UserResponse`), validation
succeeds and every field of the resulting record equals the corresponding
input value exactly, with no mutation or truncation. -/
theorem valid_input_preserved_exactly :
    (∀ (input : Input) (u p : String),
      lookupField input "username" = some (.str u) →
      lookupField input "password" = some (.str p) →
      validateUserLogin input = .ok ⟨u, p⟩)
    ∧ (∀ (input : Input) (i u e fn ln : String) (ia iv : Bool) (ca ua : Nat),
      lookupField input "id" = some (.uuid i) →
      lookupField input "username" = some (.str u) →
      lookupField input "email" = some (.str e) →
      lookupField input "first_name" = some (.str fn) →
      lookupField input "last_name" = some (.str ln) →
      lookupField input "is_active" = some (.bool ia) →
      lookupField input "is_verified" = some (.bool iv) →
      lookupField input "created_at" = some (.datetime ca) →
      lookupField input "updated_at" = some (.datetime ua) →
      isValidEmail e = true →
      validateUserResponse input = .ok ⟨i, u, e, fn, ln, ia, iv, ca, ua⟩) :=
  ⟨fun _ _ _ hu hp => validateUserLogin_ok hu hp,
   fun _ _ _ _ _ _ _ _ _ _ h1 h2 h3 h4 h5 h6 h7 h8 h9 hem =>
     validateUserResponse_ok h1 h2 h3 h4 h5 h6 h7 h8 h9 hem⟩

/-- Witness for C1 at the concrete inputs of the integration tests. -/
theorem valid_input_preserved_exactly_witness :
    validateUserLogin [("username", .str "johndoe"), ("password", .str "SecurePass123!")] =
      .ok ⟨"johndoe", "SecurePass123!"⟩
    ∧ validateUserResponse
        [("id", .uuid "8f14e45f-ceea-4f3a-9c7e-1d2e3f4a5b6c"),
         ("username", .str "johndoe123"), ("email", .str "johndoe@example.com"),
         ("first_name", .str "John"), ("last_name", .str "Doe"),
         ("is_active", .bool true), ("is_verified", .bool false),
         ("created_at", .datetime 1700000000), ("updated_at", .datetime 1700000001)] =
      .ok ⟨"8f14e45f-ceea-4f3a-9c7e-1d2e3f4a5b6c", "johndoe123", "johndoe@example.com",
           "John", "Doe", true, false, 1700000000, 1700000001⟩ :=
  ⟨valid_input_preserved_exactly.1 _ "johndoe" "SecurePass123!" (by decide) (by decide),
   valid_input_preserved_exactly.2 _ "8f14e45f-ceea-4f3a-9c7e-1d2e3f4a5b6c" "johndoe123"
     "johndoe@example.com" "John" "Doe" true false 1700000000 1700000001
     (by decide) (by decide) (by decide) (by decide) (by decide) (by decide) (by decide)
     (by decide) (by decide) (by decide)⟩

/-- C5: for every input mapping from which a required field of the target
schema (`UserLogin` or `UserResponse`) is absent, validation fails and the
violation list contains a required-field violation naming that field. -/
theorem missing_required_field_reported :
    (∀ (input : Input) (k : String), k ∈ userLoginFields →
      lookupField input k = none →
      ∃ es, validateUserLogin input = .error es ∧ requiredViol k ∈ es)
    ∧ (∀ (input : Input) (k : String), k ∈ userResponseFields →
      lookupField input k = none →
      ∃ es, validateUserResponse input = .error es ∧ requiredViol k ∈ es) := by
  constructor
  · intro input k hk h
    have hm := loginViol_mem_of_missing hk h
    exact ⟨_, error_of_errsL_ne_nil (List.ne_nil_of_mem hm), hm⟩
  · intro input k hk h
    have hm := responseViol_mem_of_missing hk h
    exact ⟨_, error_of_errsL_ne_nil (List.ne_nil_of_mem hm), hm⟩

/-- Witness for C5: a login input without its password, and a response
input without its email, are each rejected with a violation naming the
absent field. -/
theorem missing_required_field_reported_witness :
    (∃ es, validateUserLogin [("username", .str "johndoe")] = .error es ∧
      requiredViol "password" ∈ es)
    ∧ (∃ es, validateUserResponse
        [("id", .uuid "8f14e45f-ceea-4f3a-9c7e-1d2e3f4a5b6c"),
         ("username", .str "johndoe123"),
         ("first_name", .str "John"), ("last_name", .str "Doe"),
         ("is_active", .bool true), ("is_verified", .bool false),
         ("created_at", .datetime 0), ("updated_at", .datetime 0)] = .error es ∧
      requiredViol "email" ∈ es) :=
  ⟨missing_required_field_reported.1 _ "password" (by decide) (by decide),
   missing_required_field_reported.2 _ "email" (by decide) (by decide)⟩

/-- C7: when two or more distinct fields independently violate their
field-level rules, one validation call reports a violation for each of
them together: a login input missing both fields reports both required
violations, and for `UserResponse` any two distinct missing required
fields both appear in the same violation list. -/
theorem all_failing_fields_reported :
    (∀ input : Input, lookupField input "username" = none →
      lookupField input "password" = none →
      validateUserLogin input = .error [requiredViol "username", requiredViol "password"])
    ∧ (∀ (input : Input) (f g : String), f ∈ userResponseFields →
      g ∈ userResponseFields → f ≠ g →
      lookupField input f = none → lookupField input g = none →
      ∃ es, validateUserResponse input = .error es ∧
        requiredViol f ∈ es ∧ requiredViol g ∈ es) := by
  constructor
  · intro input hu hp
    unfold validateUserLogin
    rw [requireStr_missing hu, requireStr_missing hp]
    rfl
  · intro input f g hf hg _ hmf hmg
    have h1 := responseViol_mem_of_missing hf hmf
    have h2 := responseViol_mem_of_missing hg hmg
    exact ⟨_, error_of_errsL_ne_nil (List.ne_nil_of_mem h1), h1, h2⟩

/-- Witness for C7: the empty login input reports both missing fields, and
a response input missing both username and email reports both. -/
theorem all_failing_fields_reported_witness :
    validateUserLogin [] = .error [requiredViol "username", requiredViol "password"]
    ∧ (∃ es, validateUserResponse
        [("id", .uuid "8f14e45f-ceea-4f3a-9c7e-1d2e3f4a5b6c"),
         ("first_name", .str "John"), ("last_name", .str "Doe"),
         ("is_active", .bool true), ("is_verified", .bool false),
         ("created_at", .datetime 0), ("updated_at", .datetime 0)] = .error es ∧
      requiredViol "username" ∈ es ∧ requiredViol "email" ∈ es) :=
  ⟨all_failing_fields_reported.1 [] (by decide) (by decide),
   all_failing_fields_reported.2 _ "username" "email" (by decide) (by decide) (by decide)
     (by decide) (by decide)⟩

/-- C8: for every login input in which username and password are both
present as strings, `UserLogin` validation succeeds: no password strength
policy and no constraint beyond presence is applied to the login
password. -/
theorem login_presence_only :
    ∀ (input : Input) (u p : String),
      lookupField input "username" = some (.str u) →
      lookupField input "password" = some (.str p) →
      validateUserLogin input = .ok ⟨u, p⟩ :=
  fun _ _ _ hu hp => validateUserLogin_ok hu hp

/-- Witness for C8: a one-character password, violating every strength
sub-rule, is accepted at login. -/
theorem login_presence_only_witness :
    validateUserLogin [("username", .str "johndoe"), ("password", .str "a")] =
      .ok ⟨"johndoe", "a"⟩ :=
  login_presence_only _ "johndoe" "a" (by decide) (by decide)

/-- C2: the five password strength checks run in the fixed order length,
uppercase, lowercase, digit, special character; evaluation stops at the
first failing check, so only the first violated sub-rule message is
reported; and a failing check on a present password field surfaces exactly
that message (the policy guards `UserCreate.password` and
`PasswordUpdate.new_password` through `requirePassword`). -/
theorem password_policy_fixed_order_first_failure :
    (∀ p : String, p.length < 8 → checkPassword p = some "at least 8 characters")
    ∧ (∀ p : String, 8 ≤ p.length →
        p.toList.any (·.isUpper) = false →
        checkPassword p = some "at least one uppercase letter")
    ∧ (∀ p : String, 8 ≤ p.length →
        p.toList.any (·.isUpper) = true →
        p.toList.any (·.isLower) = false →
        checkPassword p = some "at least one lowercase letter")
    ∧ (∀ p : String, 8 ≤ p.length →
        p.toList.any (·.isUpper) = true →
        p.toList.any (·.isLower) = true →
        p.toList.any (·.isDigit) = false →
        checkPassword p = some "at least one digit")
    ∧ (∀ p : String, 8 ≤ p.length →
        p.toList.any (·.isUpper) = true →
        p.toList.any (·.isLower) = true →
        p.toList.any (·.isDigit) = true →
        p.toList.any (fun c => specialChars.contains c) = false →
        checkPassword p = some "at least one special character")
    ∧ (∀ p : String, 8 ≤ p.length →
        p.toList.any (·.isUpper) = true →
        p.toList.any (·.isLower) = true →
        p.toList.any (·.isDigit) = true →
        p.toList.any (fun c => specialChars.contains c) = true →
        checkPassword p = none)
    ∧ (∀ (input : Input) (k s m : String),
        lookupField input k = some (.str s) → checkPassword s = some m →
        requirePassword input k = .error ⟨k, m⟩) := by
  refine ⟨?_, ?_, ?_, ?_, ?_, ?_, fun _ _ _ _ h hc => requirePassword_fails h hc⟩
  · intro p h; unfold checkPassword; rw [if_pos h]
  · intro p h hu; unfold checkPassword
    rw [if_neg (Nat.not_lt.mpr h), hu]; rfl
  · intro p h hu hl; unfold checkPassword
    rw [if_neg (Nat.not_lt.mpr h), hu, hl]; rfl
  · intro p h hu hl hd; unfold checkPassword
    rw [if_neg (Nat.not_lt.mpr h), hu, hl, hd]; rfl
  · intro p h hu hl hd hs; unfold checkPassword
    rw [if_neg (Nat.not_lt.mpr h), hu, hl, hd, hs]; rfl
  · intro p h hu hl hd hs; unfold checkPassword
    rw [if_neg (Nat.not_lt.mpr h), hu, hl, hd, hs]; rfl

/-- Witness for C2 at the documented example passwords. -/
theorem password_policy_fixed_order_first_failure_witness :
    checkPassword "Pass1!" = some "at least 8 characters"
    ∧ checkPassword "securepass123!" = some "at least one uppercase letter"
    ∧ checkPassword "SECUREPASS123!" = some "at least one lowercase letter"
    ∧ checkPassword "SecurePass!" = some "at least one digit"
    ∧ checkPassword "SecurePass123" = some "at least one special character"
    ∧ checkPassword "SecurePass123!" = none
    ∧ requirePassword [("password", .str "password")] "password" =
        .error ⟨"password", "at least one uppercase letter"⟩ :=
  ⟨password_policy_fixed_order_first_failure.1 "Pass1!" (by decide),
   password_policy_fixed_order_first_failure.2.1 "securepass123!" (by decide) (by decide),
   password_policy_fixed_order_first_failure.2.2.1 "SECUREPASS123!" (by decide) (by decide)
     (by decide),
   password_policy_fixed_order_first_failure.2.2.2.1 "SecurePass!" (by decide) (by decide)
     (by decide) (by decide),
   password_policy_fixed_order_first_failure.2.2.2.2.1 "SecurePass123" (by decide) (by decide)
     (by decide) (by decide) (by decide),
   password_policy_fixed_order_first_failure.2.2.2.2.2.1 "SecurePass123!" (by decide)
     (by decide) (by decide) (by decide) (by decide),
   password_policy_fixed_order_first_failure.2.2.2.2.2.2 _ "password" "password"
     "at least one uppercase letter" (by decide) (by decide)⟩

/-- C3: for every `UserCreate` input whose fields all pass their
field-level checks, validation fails with a cross-field violation whose
message contains "Passwords do not match" if and only if the password
differs from the confirmation. -/
theorem create_password_mismatch_iff (input : Input) (fn ln em un pw cp : String)
    (h1 : lookupField input "first_name" = some (.str fn))
    (h2 : lookupField input "last_name" = some (.str ln))
    (h3 : lookupField input "email" = some (.str em))
    (h4 : lookupField input "username" = some (.str un))
    (h5 : lookupField input "password" = some (.str pw))
    (h6 : lookupField input "confirm_password" = some (.str cp))
    (hem : isValidEmail em = true)
    (hun : checkUsername un = none)
    (hpw : checkPassword pw = none) :
    (∃ es, validateUserCreate input = .error es ∧
      ∃ v ∈ es, strContains v.msg "Passwords do not match" = true) ↔ pw ≠ cp := by
  have hv := validateUserCreate_of_stage_ok
    (userCreateFieldStage_ok h1 h2 h3 h4 h5 h6 hem hun hpw)
  dsimp only at hv
  constructor
  · rintro ⟨es, hes, -⟩ hpc
    rw [hv, if_neg (fun hne => hne hpc)] at hes
    cases hes
  · intro hne
    rw [hv, if_pos hne]
    exact ⟨_, rfl, _, List.mem_singleton.mpr rfl, strContains_self _⟩

/-- Witness for C3: the documented pair of individually strong but
mismatched passwords is rejected, and the matched pair accepted, at a
concrete create input. -/
theorem create_password_mismatch_iff_witness :
    ((∃ es, validateUserCreate
        [("first_name", .str "John"), ("last_name", .str "Doe"),
         ("email", .str "john.doe@example.com"), ("username", .str "johndoe"),
         ("password", .str "A1!aaaaa"), ("confirm_password", .str "B1!bbbbb")] = .error es ∧
      ∃ v ∈ es, strContains v.msg "Passwords do not match" = true) ↔ "A1!aaaaa" ≠ "B1!bbbbb") :=
  create_password_mismatch_iff _ "John" "Doe" "john.doe@example.com" "johndoe"
    "A1!aaaaa" "B1!bbbbb" (by decide) (by decide) (by decide) (by decide) (by decide)
    (by decide) (by decide) (by decide) (by decide)

/-- C4: for every `PasswordUpdate` input whose fields pass field-level
checks: a mismatch between the new password and its confirmation fails
with a message containing "do not match"; otherwise a new password equal
to the current one fails with a message containing "must be different";
otherwise validation succeeds. -/
theorem password_update_crossfield_order (input : Input) (cur np cnp : String)
    (h1 : lookupField input "current_password" = some (.str cur))
    (h2 : lookupField input "new_password" = some (.str np))
    (h3 : lookupField input "confirm_new_password" = some (.str cnp))
    (hnp : checkPassword np = none) :
    (np ≠ cnp → ∃ es, validatePasswordUpdate input = .error es ∧
      ∃ v ∈ es, strContains v.msg "do not match" = true)
    ∧ (np = cnp → np = cur → ∃ es, validatePasswordUpdate input = .error es ∧
      ∃ v ∈ es, strContains v.msg "must be different" = true)
    ∧ (np = cnp → np ≠ cur → validatePasswordUpdate input = .ok ⟨cur, np, cnp⟩) := by
  have hv := validatePasswordUpdate_of_stage_ok
    (passwordUpdateFieldStage_ok h1 h2 h3 hnp)
  dsimp only at hv
  refine ⟨?_, ?_, ?_⟩
  · intro hne
    rw [hv, if_pos hne]
    exact ⟨_, rfl, _, List.mem_singleton.mpr rfl, by decide⟩
  · intro heq hcur
    rw [hv, if_neg (fun hne => hne heq), if_pos hcur]
    exact ⟨_, rfl, _, List.mem_singleton.mpr rfl, by decide⟩
  · intro heq hcur
    rw [hv, if_neg (fun hne => hne heq), if_neg hcur]

/-- Witness for C4: updating to a password identical to the current one is
rejected with the "must be different" message even though the confirmation
matches. -/
theorem password_update_crossfield_order_witness :
    ∃ es, validatePasswordUpdate
        [("current_password", .str "SamePass123!"), ("new_password", .str "SamePass123!"),
         ("confirm_new_password", .str "SamePass123!")] = .error es ∧
      ∃ v ∈ es, strContains v.msg "must be different" = true :=
  (password_update_crossfield_order _ "SamePass123!" "SamePass123!" "SamePass123!"
    (by decide) (by decide) (by decide) (by decide)).2.1 rfl rfl

/-- C6 counterexample: contrary to the claim, the username length bounds
are not enforced at login: `UserLogin` declares username as a plain
string, so a length-2 username is accepted rather than failing with
"at least 3 characters". -/
theorem login_username_length_unenforced_cex :
    validateUserLogin [("username", .str "ab"), ("password", .str "SecurePass123!")] =
      .ok ⟨"ab", "SecurePass123!"⟩ := by decide

/-- C6 amended: on create, the username rule fails with "at least 3
characters" below length 3 and with "at most 50 characters" above length
50, and accepts the bounds 3 and 50 themselves (bounds inclusive); a
failing rule on a present username surfaces exactly that message; on
login, no length rule applies: any string username is accepted. -/
theorem username_bounds_create_only :
    (∀ s : String, s.length < 3 → checkUsername s = some "at least 3 characters")
    ∧ (∀ s : String, 50 < s.length → checkUsername s = some "at most 50 characters")
    ∧ (∀ s : String, 3 ≤ s.length → s.length ≤ 50 → checkUsername s = none)
    ∧ (∀ (input : Input) (k s m : String),
        lookupField input k = some (.str s) → checkUsername s = some m →
        requireUsername input k = .error ⟨k, m⟩)
    ∧ (∀ (input : Input) (u p : String),
        lookupField input "username" = some (.str u) →
        lookupField input "password" = some (.str p) →
        validateUserLogin input = .ok ⟨u, p⟩) := by
  refine ⟨?_, ?_, ?_, fun _ _ _ _ h hc => requireUsername_fails h hc,
    fun _ _ _ hu hp => validateUserLogin_ok hu hp⟩
  · intro s h; unfold checkUsername; rw [if_pos h]
  · intro s h; unfold checkUsername
    rw [if_neg (Nat.not_lt.mpr (le_trans (by norm_num) h)), if_pos h]
  · intro s h3 h50; unfold checkUsername
    rw [if_neg (Nat.not_lt.mpr h3), if_neg (Nat.not_lt.mpr h50)]

/-- Witness for C6 amended: boundary lengths 3 and 50 pass, lengths 2 and
51 fail with the respective messages, and a length-2 username is accepted
at login. -/
theorem username_bounds_create_only_witness :
    checkUsername "ab" = some "at least 3 characters"
    ∧ checkUsername "abc" = none
    ∧ checkUsername "aaaaaaaaaaaaaaaaaaaaaaaaaaaaaaaaaaaaaaaaaaaaaaaaaa" = none
    ∧ checkUsername "aaaaaaaaaaaaaaaaaaaaaaaaaaaaaaaaaaaaaaaaaaaaaaaaaaa" =
        some "at most 50 characters"
    ∧ requireUsername [("username", .str "ab")] "username" =
        .error ⟨"username", "at least 3 characters"⟩
    ∧ validateUserLogin [("username", .str "ab"), ("password", .str "x")] = .ok ⟨"ab", "x"⟩ :=
  ⟨username_bounds_create_only.1 "ab" (by decide),
   username_bounds_create_only.2.2.1 "abc" (by decide) (by decide),
   username_bounds_create_only.2.2.1 "aaaaaaaaaaaaaaaaaaaaaaaaaaaaaaaaaaaaaaaaaaaaaaaaaa"
     (by decide) (by decide),
   username_bounds_create_only.2.1 "aaaaaaaaaaaaaaaaaaaaaaaaaaaaaaaaaaaaaaaaaaaaaaaaaaa"
     (by decide),
   username_bounds_create_only.2.2.2.1 _ "username" "ab" "at least 3 characters"
     (by decide) (by decide),
   username_bounds_create_only.2.2.2.2 _ "ab" "x" (by decide) (by decide)⟩

/-- C9 counterexample: `UserResponse` validation is not purely presence
and primitive type: with all nine attributes present and of the right
primitive type but an email string that is not valid email syntax,
construction fails on the `EmailStr` content rule. -/
theorem response_email_content_rule_cex :
    validateUserResponse
      [("id", .uuid "8f14e45f-ceea-4f3a-9c7e-1d2e3f4a5b6c"),
       ("username", .str "johndoe123"), ("email", .str "not-an-email"),
       ("first_name", .str "John"), ("last_name", .str "Doe"),
       ("is_active", .bool true), ("is_verified", .bool false),
       ("created_at", .datetime 0), ("updated_at", .datetime 0)] =
      .error [⟨"email", "value is not a valid email address"⟩] := by decide

/-- C9 amended: `UserResponse` validation is structural except for the
email format carried by the `EmailStr` type: with all nine attributes
present and of correct primitive type, construction succeeds exactly when
the email passes the email-syntax check, no other field contributing any
content rule; when the email fails that check, the only violation is the
email format violation. -/
theorem response_structural_with_email_format :
    (∀ (input : Input) (i u e fn ln : String) (ia iv : Bool) (ca ua : Nat),
      lookupField input "id" = some (.uuid i) →
      lookupField input "username" = some (.str u) →
      lookupField input "email" = some (.str e) →
      lookupField input "first_name" = some (.str fn) →
      lookupField input "last_name" = some (.str ln) →
      lookupField input "is_active" = some (.bool ia) →
      lookupField input "is_verified" = some (.bool iv) →
      lookupField input "created_at" = some (.datetime ca) →
      lookupField input "updated_at" = some (.datetime ua) →
      isValidEmail e = true →
      validateUserResponse input = .ok ⟨i, u, e, fn, ln, ia, iv, ca, ua⟩)
    ∧ (∀ (input : Input) (i u e fn ln : String) (ia iv : Bool) (ca ua : Nat),
      lookupField input "id" = some (.uuid i) →
      lookupField input "username" = some (.str u) →
      lookupField input "email" = some (.str e) →
      lookupField input "first_name" = some (.str fn) →
      lookupField input "last_name" = some (.str ln) →
      lookupField input "is_active" = some (.bool ia) →
      lookupField input "is_verified" = some (.bool iv) →
      lookupField input "created_at" = some (.datetime ca) →
      lookupField input "updated_at" = some (.datetime ua) →
      isValidEmail e = false →
      validateUserResponse input =
        .error [⟨"email", "value is not a valid email address"⟩]) := by
  refine ⟨fun _ _ _ _ _ _ _ _ _ _ h1 h2 h3 h4 h5 h6 h7 h8 h9 hem =>
    validateUserResponse_ok h1 h2 h3 h4 h5 h6 h7 h8 h9 hem, ?_⟩
  intro input i u e fn ln ia iv ca ua h1 h2 h3 h4 h5 h6 h7 h8 h9 hem
  unfold validateUserResponse
  rw [requireUUID_ok h1, requireStr_ok h2, requireEmail_invalid h3 hem, requireStr_ok h4,
    requireStr_ok h5, requireBool_ok h6, requireBool_ok h7, requireDatetime_ok h8,
    requireDatetime_ok h9]
  rfl

/-- Witness for C9 amended: concrete runs of both halves. -/
theorem response_structural_with_email_format_witness :
    validateUserResponse
      [("id", .uuid "8f14e45f-ceea-4f3a-9c7e-1d2e3f4a5b6c"),
       ("username", .str "johndoe123"), ("email", .str "johndoe@example.com"),
       ("first_name", .str "John"), ("last_name", .str "Doe"),
       ("is_active", .bool true), ("is_verified", .bool false),
       ("created_at", .datetime 0), ("updated_at", .datetime 0)] =
      .ok ⟨"8f14e45f-ceea-4f3a-9c7e-1d2e3f4a5b6c", "johndoe123", "johndoe@example.com",
           "John", "Doe", true, false, 0, 0⟩
    ∧ validateUserResponse
      [("id", .uuid "8f14e45f-ceea-4f3a-9c7e-1d2e3f4a5b6c"),
       ("username", .str "johndoe123"), ("email", .str "nope"),
       ("first_name", .str "John"), ("last_name", .str "Doe"),
       ("is_active", .bool true), ("is_verified", .bool false),
       ("created_at", .datetime 0), ("updated_at", .datetime 0)] =
      .error [⟨"email", "value is not a valid email address"⟩] :=
  ⟨response_structural_with_email_format.1 _ "8f14e45f-ceea-4f3a-9c7e-1d2e3f4a5b6c"
     "johndoe123" "johndoe@example.com" "John" "Doe" true false 0 0
     (by decide) (by decide) (by decide) (by decide) (by decide) (by decide) (by decide)
     (by decide) (by decide) (by decide),
   response_structural_with_email_format.2 _ "8f14e45f-ceea-4f3a-9c7e-1d2e3f4a5b6c"
     "johndoe123" "nope" "John" "Doe" true false 0 0
     (by decide) (by decide) (by decide) (by decide) (by decide) (by decide) (by decide)
     (by decide) (by decide) (by decide)⟩

/-- C10: additional unknown keys in the input are ignored silently by
`UserLogin` and `UserResponse` validation: an extra key that is not a
declared field changes nothing about the validation result, wherever it
sits in the input, so it causes no violation and contributes nothing to
the resulting record. -/
theorem extra_keys_ignored :
    (∀ (l₁ l₂ : Input) (k : String) (v : Value), k ∉ userLoginFields →
      validateUserLogin (l₁ ++ (k, v) :: l₂) = validateUserLogin (l₁ ++ l₂))
    ∧ (∀ (l₁ l₂ : Input) (k : String) (v : Value), k ∉ userResponseFields →
      validateUserResponse (l₁ ++ (k, v) :: l₂) = validateUserResponse (l₁ ++ l₂)) := by
  constructor
  · intro l₁ l₂ k v hk
    simp only [userLoginFields, List.mem_cons, List.not_mem_nil, or_false, not_or] at hk
    obtain ⟨n1, n2⟩ := hk
    unfold validateUserLogin
    rw [requireStr_congr (lookupField_extraneous l₁ l₂ k _ v (Ne.symm n1)),
      requireStr_congr (lookupField_extraneous l₁ l₂ k _ v (Ne.symm n2))]
  · intro l₁ l₂ k v hk
    simp only [userResponseFields, List.mem_cons, List.not_mem_nil, or_false, not_or] at hk
    obtain ⟨n1, n2, n3, n4, n5, n6, n7, n8, n9⟩ := hk
    unfold validateUserResponse
    rw [requireUUID_congr (lookupField_extraneous l₁ l₂ k _ v (Ne.symm n1)),
      requireStr_congr (lookupField_extraneous l₁ l₂ k _ v (Ne.symm n2)),
      requireEmail_congr (lookupField_extraneous l₁ l₂ k _ v (Ne.symm n3)),
      requireStr_congr (lookupField_extraneous l₁ l₂ k _ v (Ne.symm n4)),
      requireStr_congr (lookupField_extraneous l₁ l₂ k _ v (Ne.symm n5)),
      requireBool_congr (lookupField_extraneous l₁ l₂ k _ v (Ne.symm n6)),
      requireBool_congr (lookupField_extraneous l₁ l₂ k _ v (Ne.symm n7)),
      requireDatetime_congr (lookupField_extraneous l₁ l₂ k _ v (Ne.symm n8)),
      requireDatetime_congr (lookupField_extraneous l₁ l₂ k _ v (Ne.symm n9))]

/-- Witness for C10: an unknown "role" key inserted in the middle of a
login input leaves the result unchanged. -/
theorem extra_keys_ignored_witness :
    validateUserLogin
        ([("username", .str "johndoe")] ++ ("role", .str "admin") ::
          [("password", .str "SecurePass123!")]) =
      validateUserLogin ([("username", .str "johndoe")] ++ [("password", .str "SecurePass123!")]) :=
  extra_keys_ignored.1 [("username", .str "johndoe")] [("password", .str "SecurePass123!")]
    "role" (.str "admin") (by decide)

end UserSchemas
